import Mathlib

/-!
Shallow embedding of the pyan driver (src/pyan/pyan.py) and, for the parts of
the repository that live outside src/, a model taken from the specification.

The repository under src/ contains only the command-line driver `pyan.py`
(plus setup.py); the analyzer (`pyan.analyzer.CallGraphVisitor`), the visual
graph builder (`pyan.visgraph.VisualGraph`) and the writers are imported from
modules that are not part of src/.  The driver is embedded faithfully below;
the analyzer behaviour needed by one claim is modelled from the spec and
clearly marked as such.
-/

namespace Pyan

/-- A command line for pyan, abstracted as: the list of positional filename
patterns, which boolean switches were given on the command line, and the
values of the string-valued options.  This mirrors the argparse parser
declared in `process_command_line` (src/pyan/pyan.py lines 23-198): each
`store_true`/`store_false` switch is recorded as "was this switch present". -/
structure CmdLine where
  patterns : List String
  dotFlag : Bool := false
  tgfFlag : Bool := false
  yedFlag : Bool := false
  svgFlag : Bool := false
  pngFlag : Bool := false
  outfilename : Option String := none
  definesFlag : Bool := false
  noDefinesFlag : Bool := false
  usesFlag : Bool := false
  noUsesFlag : Bool := false
  groupedAltFlag : Bool := false
  groupedFlag : Bool := false
  coloredFlag : Bool := false
  nestedGroupsFlag : Bool := false
  rankdir : String := "TB"
  annotatedFlag : Bool := false
  verboseFlag : Bool := false
  veryVerboseFlag : Bool := false
deriving Repr, DecidableEq

/-- The argparse result namespace: the destination attributes that
`process_command_line` returns (the `args` object in the Python code). -/
structure Args where
  filename : List String
  dot : Bool
  tgf : Bool
  yed : Bool
  svg : Bool
  png : Bool
  outfilename : Option String
  draw_defines : Bool
  draw_uses : Bool
  grouped_alt : Bool
  grouped : Bool
  colored : Bool
  nested_groups : Bool
  rankdir : String
  annotated : Bool
deriving Repr, DecidableEq

/-- For a mutually exclusive argparse group, given the member options as
(option name, was it given) pairs, return the first conflicting pair if two
members were given on the command line.  argparse rejects the command line
exactly when such a pair exists. -/
def conflictPair : List (String × Bool) → Option (String × String)
  | [] => none
  | (n, b) :: rest =>
    if b then
      match rest.find? (fun p => p.2) with
      | some m => some (n, m.1)
      | none => none
    else conflictPair rest

/-- The members of the output-format mutually exclusive group
(src/pyan/pyan.py lines 42-69). -/
def outputGroup (c : CmdLine) : List (String × Bool) :=
  [("--dot", c.dotFlag), ("--tgf", c.tgfFlag), ("--yed", c.yedFlag),
   ("--svg", c.svgFlag), ("--png", c.pngFlag)]

/-- The members of the defines mutually exclusive group (lines 85-101). -/
def definesGroup (c : CmdLine) : List (String × Bool) :=
  [("-d/--defines", c.definesFlag), ("-n/--no-defines", c.noDefinesFlag)]

/-- The members of the uses mutually exclusive group (lines 103-119). -/
def usesGroup (c : CmdLine) : List (String × Bool) :=
  [("-u/--uses", c.usesFlag), ("-N/--no-uses", c.noUsesFlag)]

/-- The members of the grouping mutually exclusive group (lines 121-137):
only `--grouped-alt` and `--grouped` belong to it; `--nested-groups` is
declared as an ordinary argument (lines 147-154) outside the group. -/
def groupedGroup (c : CmdLine) : List (String × Bool) :=
  [("-G/--grouped-alt", c.groupedAltFlag), ("-g/--grouped", c.groupedFlag)]

/-- Embedding of `process_command_line` (src/pyan/pyan.py lines 23-198):
the argparse parser rejects a command line with no positional filename
(`nargs` is "+") or with two options of one mutually exclusive group given,
naming the conflicting options; otherwise it returns the `args` namespace,
with `draw_defines`/`draw_uses` defaulting to true and set false by their
`store_false` switches. -/
def process_command_line (c : CmdLine) : Except String Args :=
  if c.patterns.isEmpty then
    Except.error "the following arguments are required: filename"
  else
    match conflictPair (outputGroup c) with
    | some p => Except.error ("argument " ++ p.2 ++ ": not allowed with argument " ++ p.1)
    | none =>
      match conflictPair (definesGroup c) with
      | some p => Except.error ("argument " ++ p.2 ++ ": not allowed with argument " ++ p.1)
      | none =>
        match conflictPair (usesGroup c) with
        | some p => Except.error ("argument " ++ p.2 ++ ": not allowed with argument " ++ p.1)
        | none =>
          match conflictPair (groupedGroup c) with
          | some p => Except.error ("argument " ++ p.2 ++ ": not allowed with argument " ++ p.1)
          | none =>
            Except.ok
              { filename := c.patterns
                dot := c.dotFlag
                tgf := c.tgfFlag
                yed := c.yedFlag
                svg := c.svgFlag
                png := c.pngFlag
                outfilename := c.outfilename
                draw_defines := if c.noDefinesFlag then false else true
                draw_uses := if c.noUsesFlag then false else true
                grouped_alt := c.groupedAltFlag
                grouped := c.groupedFlag
                colored := c.coloredFlag
                nested_groups := c.nestedGroupsFlag
                rankdir := c.rankdir
                annotated := c.annotatedFlag }

/-- Index of the last occurrence of a character in a list of characters,
with -1 when absent (the convention of the Python str.rfind used by
os.path.splitext). -/
def lastIdxOf (cs : List Char) (c : Char) : Int :=
  (List.range cs.length).foldl
    (fun acc i => if cs.get? i = some c then (i : Int) else acc) (-1)

/-- Embedding of os.path.splitext (posixpath): split a path into root and
extension.  The extension is everything from the last dot after the last
path separator, unless every character of the basename before that dot is
itself a dot (a leading-dot filename has no extension). -/
def splitext (p : String) : String × String :=
  let cs := p.toList
  let sepI := lastIdxOf cs '/'
  let dotI := lastIdxOf cs '.'
  if sepI < dotI then
    if (List.range cs.length).any
        (fun i => decide (sepI < (i : Int)) && decide ((i : Int) < dotI)
          && decide (cs.get? i ≠ some '.')) then
      (String.mk (cs.take dotI.toNat), String.mk (cs.drop dotI.toNat))
    else (p, "")
  else (p, "")

/-- The extension of a filename without the leading dot:
os.path.splitext(f)[1][1:] as used on src/pyan/pyan.py line 215. -/
def extNoDot (f : String) : String := (splitext f).2.drop 1

/-- Python truthiness of the optional outfilename: None and the empty
string are falsy. -/
def optTruthy : Option String → Bool
  | none => false
  | some s => !s.isEmpty

/-- Embedding of `get_out_format` (src/pyan/pyan.py lines 201-219).  The
Python and/or chain picks the first true switch in the order
dot, svg, png, tgf, yed (yielding False when none is set, modelled as
`none`); then a truthy outfilename supplies its extension when no switch
produced a format; finally a falsy format (False or the empty string)
defaults to "dot". -/
def get_out_format (args : Args) : String :=
  let fmt : Option String :=
    if args.dot then some "dot"
    else if args.svg then some "svg"
    else if args.png then some "png"
    else if args.tgf then some "tgf"
    else if args.yed then some "yed"
    else none
  let fmt :=
    if optTruthy args.outfilename && fmt.isNone then
      some (extNoDot (args.outfilename.getD ""))
    else fmt
  match fmt with
  | none => "dot"
  | some s => if s.isEmpty then "dot" else s

/-- An observable event of one run of `main`: construction of the analyzer
(`CallGraphVisitor(filenames, logger)`), construction of the presentation
graph (`VisualGraph.from_visitor`), construction of a writer for a format,
running the writer, or printing a message and stopping. -/
inductive Event where
  | analyze (filenames : List String)
  | buildGraph
  | makeWriter (fmt : String)
  | runWriter
  | printed (msg : String)
deriving Repr, DecidableEq

/-- The graph options mapping built on src/pyan/pyan.py lines 233-241,
as an ordered association list so that its key set is observable. -/
def graph_options (args : Args) : List (String × Bool) :=
  [("draw_defines", args.draw_defines),
   ("draw_uses", args.draw_uses),
   ("colored", args.colored),
   ("grouped_alt", args.grouped_alt),
   ("grouped", args.grouped),
   ("nested_groups", args.nested_groups),
   ("annotated", args.annotated)]

/-- The nested-groups coupling of src/pyan/pyan.py lines 230-231:
`if args.nested_groups: args.grouped = True`, applied before the graph
options mapping is built. -/
def applyNestedCoupling (args : Args) : Args :=
  if args.nested_groups then { args with grouped := true } else args

/-- The options mapping that `main` hands to `VisualGraph.from_visitor`:
the coupling of lines 230-231 followed by the dictionary of lines 233-241. -/
def mainGraphOptions (args : Args) : List (String × Bool) :=
  graph_options (applyNestedCoupling args)

/-- The message printed by main when no writer matches the format
(src/pyan/pyan.py lines 291-296). -/
def cannotDetermineMsg : String :=
  "Cannot determine output format.  Stopping without creating any output."

/-- The message printed when dot is not on PATH (lines 281-289). -/
def noDotMsg : String :=
  "No executable dot found in PATH.  Stopping without creating any output."

/-- Embedding of `main` (src/pyan/pyan.py lines 222-298).  The environment
is explicit: `globFn` gives the filesystem expansion of one glob pattern
(the order the glob call returns, fixed by the filesystem state), and
`dotInPath` says whether constructing a DotRenderer raises NoDotError.
The result is the sequence of pipeline events of the run, or the error on
which argparse exits (plus the unreachable NameError of line 227, where the
name `parser` is not in scope in main).  Logging is omitted: it creates no
pipeline event. -/
def main (globFn : String → List String) (dotInPath : Bool) (c : CmdLine) :
    Except String (List Event) :=
  match process_command_line c with
  | Except.error e => Except.error e
  | Except.ok args =>
    let filenames := args.filename
    if filenames.isEmpty then
      Except.error "NameError: name parser is not defined"
    else
      let filenames := filenames.flatMap globFn
      let args := applyNestedCoupling args
      let out_format := get_out_format args
      let t1 : List Event := [Event.analyze filenames, Event.buildGraph]
      if out_format = "dot" then
        Except.ok (t1 ++ [Event.makeWriter "dot", Event.runWriter])
      else if out_format = "tgf" then
        Except.ok (t1 ++ [Event.makeWriter "tgf", Event.runWriter])
      else if out_format = "yed" then
        Except.ok (t1 ++ [Event.makeWriter "yed", Event.runWriter])
      else if out_format = "svg" || out_format = "png" then
        if dotInPath then
          Except.ok (t1 ++ [Event.makeWriter out_format, Event.runWriter])
        else
          Except.ok (t1 ++ [Event.printed noDotMsg])
      else
        Except.ok (t1 ++ [Event.printed cannotDetermineMsg])

/-- Modelled from the spec: a source file handed to the analyzer.  The
module `pyan.analyzer` (class CallGraphVisitor) is not under src/, so the
parse outcome is part of the model: `parseResult` is the list of graph
nodes the file contributes when it parses, and `none` when the file fails
to parse (spec 4.1: "a file that fails to parse is skipped with a reported
diagnostic; analysis continues for all other files"). -/
structure SrcFile where
  name : String
  parseResult : Option (List String)
deriving Repr, DecidableEq

/-- Modelled from the spec: the outcome of the analysis batch - the
diagnostics naming the skipped files, and the nodes of the combined graph. -/
structure AnalysisResult where
  diagnostics : List String
  nodes : List String
deriving Repr, DecidableEq

/-- Modelled from the spec: the per-file loop of CallGraphVisitor
(module `pyan.analyzer`, not under src/).  Each file is parsed; a file that
fails to parse is recorded as a diagnostic naming the file and the batch
continues; each parsed file contributes its nodes to the combined graph
(spec 4.1 error handling and spec 7(a)). -/
def callGraphVisit : List SrcFile → AnalysisResult
  | [] => { diagnostics := [], nodes := [] }
  | f :: rest =>
    let r := callGraphVisit rest
    match f.parseResult with
    | none => { diagnostics := f.name :: r.diagnostics, nodes := r.nodes }
    | some ds => { diagnostics := r.diagnostics, nodes := ds ++ r.nodes }

/-- Is an event the construction of the analyzer? -/
def isAnalyzeEvent : Event → Bool
  | Event.analyze _ => true
  | _ => false

/-! ## Helper lemmas about the embedded driver -/

/-- Inversion of a successful parse: every mutually exclusive group is
conflict-free, the pattern list is nonempty, and the returned namespace is
exactly the record the parser builds from the command line. -/
theorem process_ok_inv (c : CmdLine) (a : Args)
    (h : process_command_line c = Except.ok a) :
    c.patterns.isEmpty = false ∧
    conflictPair (outputGroup c) = none ∧
    conflictPair (definesGroup c) = none ∧
    conflictPair (usesGroup c) = none ∧
    conflictPair (groupedGroup c) = none ∧
    a = { filename := c.patterns
          dot := c.dotFlag
          tgf := c.tgfFlag
          yed := c.yedFlag
          svg := c.svgFlag
          png := c.pngFlag
          outfilename := c.outfilename
          draw_defines := if c.noDefinesFlag then false else true
          draw_uses := if c.noUsesFlag then false else true
          grouped_alt := c.groupedAltFlag
          grouped := c.groupedFlag
          colored := c.coloredFlag
          nested_groups := c.nestedGroupsFlag
          rankdir := c.rankdir
          annotated := c.annotatedFlag } := by
  unfold process_command_line at h
  split at h
  · simp at h
  · split at h
    · simp at h
    · split at h
      · simp at h
      · split at h
        · simp at h
        · split at h
          · simp at h
          · cases h
            refine ⟨?_, ?_, ?_, ?_, ?_, rfl⟩ <;> simp_all

/-- The shape of every successful run of main: the analyzer is constructed
exactly once, on the glob expansion of the patterns in command-line order,
then the visual graph is built, and the run ends either with one writer
constructed and run once, or with a printed message and no writer. -/
theorem main_ok_cases (g : String → List String) (d : Bool) (c : CmdLine)
    (t : List Event) (h : main g d c = Except.ok t) :
    (∃ f, t = [Event.analyze (c.patterns.flatMap g), Event.buildGraph,
               Event.makeWriter f, Event.runWriter]) ∨
    (∃ m, t = [Event.analyze (c.patterns.flatMap g), Event.buildGraph,
               Event.printed m]) := by
  unfold main at h
  cases hp : process_command_line c with
  | error e => rw [hp] at h; simp at h
  | ok a =>
    rw [hp] at h
    have hfil : a.filename = c.patterns := by
      rw [(process_ok_inv c a hp).2.2.2.2.2]
    simp only [hfil] at h
    split at h
    · simp at h
    · split at h
      · exact Or.inl ⟨"dot", by cases h; rfl⟩
      · split at h
        · exact Or.inl ⟨"tgf", by cases h; rfl⟩
        · split at h
          · exact Or.inl ⟨"yed", by cases h; rfl⟩
          · split at h
            · split at h
              · exact Or.inl ⟨_, by cases h; rfl⟩
              · exact Or.inr ⟨noDotMsg, by cases h; rfl⟩
            · exact Or.inr ⟨cannotDetermineMsg, by cases h; rfl⟩

/-! ## Claims -/

/-- C1: Determinism of the driver.  For a fixed filesystem state (a fixed
glob expansion function) and fixed options, two successful invocations of
main produce the same event trace, and each run passes the analyzer
exactly one filename list: the expansion of the glob patterns in the
caller-determined pattern order, a run-independent stable ordering. -/
theorem driver_deterministic (g : String → List String) (d : Bool)
    (c : CmdLine) (t t' : List Event)
    (h : main g d c = Except.ok t) (h' : main g d c = Except.ok t') :
    t = t' ∧
    t.filter isAnalyzeEvent = [Event.analyze (c.patterns.flatMap g)] := by
  constructor
  · rw [h] at h'; cases h'; rfl
  · rcases main_ok_cases g d c t h with ⟨f, hf⟩ | ⟨m, hm⟩
    · rw [hf]; simp [isAnalyzeEvent]
    · rw [hm]; simp [isAnalyzeEvent]

/-- C1 witness: a concrete successful run; both hypotheses are discharged
by evaluation. -/
theorem driver_deterministic_witness :
    ([Event.analyze ["a.py"], Event.buildGraph, Event.makeWriter "dot",
      Event.runWriter]
      = [Event.analyze ["a.py"], Event.buildGraph, Event.makeWriter "dot",
         Event.runWriter]) ∧
    List.filter isAnalyzeEvent
        [Event.analyze ["a.py"], Event.buildGraph, Event.makeWriter "dot",
         Event.runWriter]
      = [Event.analyze ((["a.py"] : List String).flatMap (fun p => [p]))] :=
  driver_deterministic (fun p => [p]) true { patterns := ["a.py"] } _ _
    (by rfl) (by rfl)

/-- C2: evaluating main at the failing input.  With the single pattern
expanding to no files at all, the run is not rejected: the analyzer is
constructed with the empty filename list, the visual graph is built and the
dot writer runs - contradicting the spec requirement that no input files is
a fatal configuration error reported before any analysis work begins. -/
theorem empty_expansion_still_runs_analysis :
    main (fun _ => []) true { patterns := ["nonexistent*.py"] } =
      Except.ok [Event.analyze [], Event.buildGraph,
                 Event.makeWriter "dot", Event.runWriter] := by
  rfl

/-- C3 counterexample: a command line requesting two of the three grouping
modes together (nested-groups and grouped-alt) is accepted by argument
processing, not rejected: nested-groups is declared outside the mutually
exclusive group. -/
theorem nested_with_grouped_alt_accepted :
    process_command_line
        { patterns := ["x.py"], groupedAltFlag := true,
          nestedGroupsFlag := true } =
      Except.ok
        { filename := ["x.py"], dot := false, tgf := false, yed := false,
          svg := false, png := false, outfilename := none,
          draw_defines := true, draw_uses := true, grouped_alt := true,
          grouped := false, colored := false, nested_groups := true,
          rankdir := "TB", annotated := false } := by
  rfl

/-- C3 amended: only grouped and grouped-alt are mutually exclusive.  Every
command line giving both is rejected before analysis starts, and - when no
other group conflicts first - with the argparse message naming the two
conflicting options; nested-groups may be combined with either of the other
two modes. -/
theorem grouped_and_grouped_alt_rejected (c : CmdLine)
    (hG : c.groupedAltFlag = true) (hg : c.groupedFlag = true) :
    (∀ a, process_command_line c ≠ Except.ok a) ∧
    (c.patterns.isEmpty = false →
      conflictPair (outputGroup c) = none →
      conflictPair (definesGroup c) = none →
      conflictPair (usesGroup c) = none →
      process_command_line c =
        Except.error
          "argument -g/--grouped: not allowed with argument -G/--grouped-alt") := by
  constructor
  · intro a h
    have hinv := (process_ok_inv c a h).2.2.2.2.1
    rw [groupedGroup, hG, hg] at hinv
    simp [conflictPair] at hinv
  · intro h1 h2 h3 h4
    unfold process_command_line
    rw [h1, h2, h3, h4]
    rw [groupedGroup, hG, hg]
    simp [conflictPair]

/-- C3 amended witness: the concrete command line giving both grouped and
grouped-alt is rejected with the message naming both options. -/
theorem grouped_and_grouped_alt_rejected_witness :
    process_command_line
        { patterns := ["x.py"], groupedAltFlag := true, groupedFlag := true } =
      Except.error
        "argument -g/--grouped: not allowed with argument -G/--grouped-alt" :=
  (grouped_and_grouped_alt_rejected
      { patterns := ["x.py"], groupedAltFlag := true, groupedFlag := true }
      rfl rfl).2 (by decide) (by decide) (by decide) (by decide)

/-- C4: nested-groups implies grouped.  For every accepted command line on
which nested-groups was requested, the options mapping handed to the visual
graph builder has grouped set to true, whether or not grouped itself was
given. -/
theorem nested_groups_implies_grouped (c : CmdLine) (a : Args)
    (h : process_command_line c = Except.ok a)
    (hn : c.nestedGroupsFlag = true) :
    (mainGraphOptions a).lookup "grouped" = some true := by
  rw [(process_ok_inv c a h).2.2.2.2.2]
  simp [mainGraphOptions, applyNestedCoupling, graph_options, hn, List.lookup]

/-- C4 witness: a concrete accepted command line requesting nested-groups
but not grouped. -/
theorem nested_groups_implies_grouped_witness :
    (mainGraphOptions
        { filename := ["x.py"], dot := false, tgf := false, yed := false,
          svg := false, png := false, outfilename := none,
          draw_defines := true, draw_uses := true, grouped_alt := false,
          grouped := false, colored := false, nested_groups := true,
          rankdir := "TB", annotated := false }).lookup "grouped"
      = some true :=
  nested_groups_implies_grouped
    { patterns := ["x.py"], nestedGroupsFlag := true } _ (by rfl) rfl

/-- C5: the options mapping passed to the visual graph builder has exactly
the seven documented keys, and each of the four independent toggles
(colored, annotated, draw-defines, draw-uses) changes only its own entry of
the mapping, every other entry - including the nested-groups-implies-grouped
coupling - being unchanged. -/
theorem graph_options_exact_keys_and_independent (a : Args) (b : Bool) :
    (mainGraphOptions a).map Prod.fst =
      ["draw_defines", "draw_uses", "colored", "grouped_alt", "grouped",
       "nested_groups", "annotated"] ∧
    mainGraphOptions { a with colored := b } =
      (mainGraphOptions a).map
        (fun p => if p.1 = "colored" then (p.1, b) else p) ∧
    mainGraphOptions { a with annotated := b } =
      (mainGraphOptions a).map
        (fun p => if p.1 = "annotated" then (p.1, b) else p) ∧
    mainGraphOptions { a with draw_defines := b } =
      (mainGraphOptions a).map
        (fun p => if p.1 = "draw_defines" then (p.1, b) else p) ∧
    mainGraphOptions { a with draw_uses := b } =
      (mainGraphOptions a).map
        (fun p => if p.1 = "draw_uses" then (p.1, b) else p) := by
  cases hn : a.nested_groups <;>
    simp [mainGraphOptions, applyNestedCoupling, graph_options, hn]

/-- C6: the pipeline of main is strictly sequential with no feedback loop.
Every successful run starts with the analyzer run to completion over the
expanded input files, then the presentation graph is built, and the run
ends either with exactly one writer constructed and then run exactly once,
or with a printed message and no writer; nothing follows the writer run. -/
theorem pipeline_strictly_sequential (g : String → List String) (d : Bool)
    (c : CmdLine) (t : List Event) (h : main g d c = Except.ok t) :
    t.take 2 = [Event.analyze (c.patterns.flatMap g), Event.buildGraph] ∧
    ((∃ f, t.drop 2 = [Event.makeWriter f, Event.runWriter]) ∨
     (∃ m, t.drop 2 = [Event.printed m])) := by
  rcases main_ok_cases g d c t h with ⟨f, hf⟩ | ⟨m, hm⟩
  · rw [hf]; exact ⟨rfl, Or.inl ⟨f, rfl⟩⟩
  · rw [hm]; exact ⟨rfl, Or.inr ⟨m, rfl⟩⟩

/-- C6 witness: the shape of a concrete successful run. -/
theorem pipeline_strictly_sequential_witness :
    ([Event.analyze ["b.py"], Event.buildGraph, Event.makeWriter "tgf",
      Event.runWriter].take 2
      = [Event.analyze ((["b.py"] : List String).flatMap (fun p => [p])),
         Event.buildGraph]) ∧
    ((∃ f, [Event.analyze ["b.py"], Event.buildGraph, Event.makeWriter "tgf",
            Event.runWriter].drop 2 = [Event.makeWriter f, Event.runWriter]) ∨
     (∃ m, [Event.analyze ["b.py"], Event.buildGraph, Event.makeWriter "tgf",
            Event.runWriter].drop 2 = [Event.printed m])) :=
  pipeline_strictly_sequential (fun p => [p]) true
    { patterns := ["b.py"], tgfFlag := true } _ (by rfl)

/-- Every file of the batch that fails to parse is named by a diagnostic of
the analysis result. -/
theorem callGraphVisit_diag_mem :
    ∀ (files : List SrcFile) (f : SrcFile), f ∈ files →
      f.parseResult = none → f.name ∈ (callGraphVisit files).diagnostics := by
  intro files
  induction files with
  | nil => intro f hf _; cases hf
  | cons x rest ih =>
    intro f hf hfail
    rcases List.mem_cons.mp hf with h | h
    · subst h
      unfold callGraphVisit
      rw [hfail]
      simp
    · unfold callGraphVisit
      cases hx : x.parseResult <;> simp [hx, ih f h hfail]

/-- Every node contributed by a file of the batch that parses appears in
the nodes of the analysis result. -/
theorem callGraphVisit_nodes_mem :
    ∀ (files : List SrcFile) (gf : SrcFile) (ds : List String), gf ∈ files →
      gf.parseResult = some ds → ∀ n ∈ ds, n ∈ (callGraphVisit files).nodes := by
  intro files
  induction files with
  | nil => intro gf ds hg _ n hn; cases hg
  | cons x rest ih =>
    intro gf ds hg hds n hn
    rcases List.mem_cons.mp hg with h | h
    · subst h
      unfold callGraphVisit
      rw [hds]
      simp [hn]
    · unfold callGraphVisit
      cases hx : x.parseResult <;> simp [hx, ih gf ds h hds n hn]

/-- C7: a file that fails to parse is not fatal to the batch; it is skipped
with a diagnostic naming it, the analysis runs to completion, and the nodes
of every other file that parses still appear in the combined result. -/
theorem parse_failure_skipped_not_fatal (files : List SrcFile) (f : SrcFile)
    (hf : f ∈ files) (hfail : f.parseResult = none) :
    f.name ∈ (callGraphVisit files).diagnostics ∧
    ∀ gf ∈ files, ∀ ds, gf.parseResult = some ds →
      ∀ n ∈ ds, n ∈ (callGraphVisit files).nodes :=
  ⟨callGraphVisit_diag_mem files f hf hfail,
   fun gf hg ds hds n hn => callGraphVisit_nodes_mem files gf ds hg hds n hn⟩

/-- C7 witness: a concrete batch with one failing and one parsing file. -/
theorem parse_failure_skipped_not_fatal_witness :
    ("bad.py" ∈ (callGraphVisit
        [{ name := "bad.py", parseResult := none },
         { name := "good.py", parseResult := some ["good.f"] }]).diagnostics) ∧
    ∀ gf ∈ [({ name := "bad.py", parseResult := none } : SrcFile),
            { name := "good.py", parseResult := some ["good.f"] }],
      ∀ ds, gf.parseResult = some ds →
        ∀ n ∈ ds, n ∈ (callGraphVisit
          [{ name := "bad.py", parseResult := none },
           { name := "good.py", parseResult := some ["good.f"] }]).nodes :=
  parse_failure_skipped_not_fatal _ { name := "bad.py", parseResult := none }
    (by simp) rfl

/-- Changing only the grouped field (the nested-groups coupling) does not
change the output format that main computes. -/
theorem get_out_format_applyNestedCoupling (a : Args) :
    get_out_format (applyNestedCoupling a) = get_out_format a := by
  unfold applyNestedCoupling
  split <;> rfl

/-- With no format switch set and a truthy outfilename, the output format
is the extension of the outfilename without its leading dot, defaulting to
dot when that extension is empty. -/
theorem get_out_format_no_switch (a : Args) (h1 : a.dot = false)
    (h2 : a.svg = false) (h3 : a.png = false) (h4 : a.tgf = false)
    (h5 : a.yed = false) (f : String) (hout : a.outfilename = some f)
    (hf : f.isEmpty = false) :
    get_out_format a =
      if (extNoDot f).isEmpty then "dot" else extNoDot f := by
  simp [get_out_format, h1, h2, h3, h4, h5, hout, optTruthy, hf]

/-- C8: characterization of get_out_format.  The first true format switch
in the priority order dot, svg, png, tgf, yed decides the format; with no
switch given, a truthy output filename supplies its extension without the
leading dot when that extension is nonempty; otherwise the format defaults
to dot. -/
theorem get_out_format_characterization (a : Args) :
    (a.dot = true → get_out_format a = "dot") ∧
    (a.dot = false → a.svg = true → get_out_format a = "svg") ∧
    (a.dot = false → a.svg = false → a.png = true →
      get_out_format a = "png") ∧
    (a.dot = false → a.svg = false → a.png = false → a.tgf = true →
      get_out_format a = "tgf") ∧
    (a.dot = false → a.svg = false → a.png = false → a.tgf = false →
      a.yed = true → get_out_format a = "yed") ∧
    (a.dot = false → a.svg = false → a.png = false → a.tgf = false →
      a.yed = false → ∀ f, a.outfilename = some f → f.isEmpty = false →
      (extNoDot f).isEmpty = false → get_out_format a = extNoDot f) ∧
    (a.dot = false → a.svg = false → a.png = false → a.tgf = false →
      a.yed = false →
      (optTruthy a.outfilename = false ∨
        extNoDot (a.outfilename.getD "") = "") →
      get_out_format a = "dot") := by
  refine ⟨?_, ?_, ?_, ?_, ?_, ?_, ?_⟩
  · intro h1; simp [get_out_format, h1]
  · intro h1 h2; simp [get_out_format, h1, h2]; decide
  · intro h1 h2 h3; simp [get_out_format, h1, h2, h3]; decide
  · intro h1 h2 h3 h4; simp [get_out_format, h1, h2, h3, h4]; decide
  · intro h1 h2 h3 h4 h5; simp [get_out_format, h1, h2, h3, h4, h5]; decide
  · intro h1 h2 h3 h4 h5 f hout hf hext
    rw [get_out_format_no_switch a h1 h2 h3 h4 h5 f hout hf, hext]
    simp
  · intro h1 h2 h3 h4 h5 hor
    rcases hor with hfalse | hext
    · simp [get_out_format, h1, h2, h3, h4, h5, hfalse]
    · cases hout : a.outfilename with
      | none => simp [get_out_format, h1, h2, h3, h4, h5, hout, optTruthy]
      | some f =>
        rw [hout] at hext
        simp only [Option.getD_some] at hext
        cases hf : f.isEmpty
        · rw [get_out_format_no_switch a h1 h2 h3 h4 h5 f hout hf, hext]
          decide
        · simp [get_out_format, h1, h2, h3, h4, h5, hout, optTruthy, hf]

/-- C8 witness: a concrete invocation with the dot switch set. -/
theorem get_out_format_characterization_witness :
    get_out_format
        { filename := ["x.py"], dot := true, tgf := false, yed := false,
          svg := false, png := false, outfilename := some "out.svg",
          draw_defines := true, draw_uses := true, grouped_alt := false,
          grouped := false, colored := false, nested_groups := false,
          rankdir := "TB", annotated := false } = "dot" :=
  (get_out_format_characterization _).1 rfl

/-- C9: an unrecognized output filename extension is detected only after
analysis.  When no format switch is given and the outfilename extension is
nonempty but none of dot, tgf, yed, svg, png, a successful run of main
consists of the analysis, the visual graph build, and then the printed
cannot-determine-output-format message: no writer is constructed and no
output is produced, but both earlier stages have already run. -/
theorem unknown_extension_detected_after_analysis
    (g : String → List String) (d : Bool) (c : CmdLine) (t : List Event)
    (f : String)
    (hdot : c.dotFlag = false) (htgf : c.tgfFlag = false)
    (hyed : c.yedFlag = false) (hsvg : c.svgFlag = false)
    (hpng : c.pngFlag = false) (hout : c.outfilename = some f)
    (hfne : f.isEmpty = false)
    (he0 : (extNoDot f).isEmpty = false)
    (he1 : extNoDot f ≠ "dot") (he2 : extNoDot f ≠ "tgf")
    (he3 : extNoDot f ≠ "yed") (he4 : extNoDot f ≠ "svg")
    (he5 : extNoDot f ≠ "png")
    (h : main g d c = Except.ok t) :
    t = [Event.analyze (c.patterns.flatMap g), Event.buildGraph,
         Event.printed cannotDetermineMsg] := by
  unfold main at h
  cases hp : process_command_line c with
  | error e => rw [hp] at h; simp at h
  | ok a =>
    rw [hp] at h
    have ha := (process_ok_inv c a hp).2.2.2.2.2
    have hfmt : get_out_format (applyNestedCoupling a) = extNoDot f := by
      rw [get_out_format_applyNestedCoupling]
      rw [get_out_format_no_switch a (by rw [ha]; exact hdot)
        (by rw [ha]; exact hsvg) (by rw [ha]; exact hpng)
        (by rw [ha]; exact htgf) (by rw [ha]; exact hyed) f
        (by rw [ha]; exact hout) hfne, he0]
      simp
    have hemp : c.patterns.isEmpty = false := (process_ok_inv c a hp).1
    have hfil : a.filename = c.patterns := by rw [ha]
    simp only [hfil, hemp, Bool.false_eq_true, if_false, hfmt] at h
    rw [if_neg he1, if_neg he2, if_neg he3] at h
    rw [if_neg (by simp [he4, he5])] at h
    cases h
    rfl

/-- C9 witness: a concrete run with outfilename out.xyz, whose unrecognized
extension is reported only after analysis and graph build. -/
theorem unknown_extension_detected_after_analysis_witness :
    ([Event.analyze ["a.py"], Event.buildGraph,
      Event.printed cannotDetermineMsg]
      : List Event) =
      [Event.analyze (((["a.py"] : List String)).flatMap (fun p => [p])),
       Event.buildGraph, Event.printed cannotDetermineMsg] :=
  unknown_extension_detected_after_analysis (fun p => [p]) true
    { patterns := ["a.py"], outfilename := some "out.xyz" } _ "out.xyz"
    rfl rfl rfl rfl rfl rfl (by decide) (by decide) (by decide) (by decide)
    (by decide) (by decide) (by decide) (by rfl)

/-- Two or more output-format switches given on one command line always
produce a conflict in the output mutually exclusive group. -/
theorem output_conflict_of_two (c : CmdLine)
    (h2 : 2 ≤ ([c.dotFlag, c.tgfFlag, c.yedFlag, c.svgFlag,
                c.pngFlag].count true)) :
    conflictPair (outputGroup c) ≠ none := by
  cases hd : c.dotFlag <;> cases ht : c.tgfFlag <;> cases hy : c.yedFlag <;>
    cases hs : c.svgFlag <;> cases hp : c.pngFlag <;>
      simp_all [outputGroup, conflictPair, List.count_cons]

/-- C10: the output-format switches are mutually exclusive.  A command line
giving two or more of dot, tgf, yed, svg, png is rejected by argument
parsing, and main never reaches analysis or output on it. -/
theorem output_switches_mutually_exclusive (g : String → List String)
    (d : Bool) (c : CmdLine)
    (h2 : 2 ≤ ([c.dotFlag, c.tgfFlag, c.yedFlag, c.svgFlag,
                c.pngFlag].count true)) :
    (∀ a, process_command_line c ≠ Except.ok a) ∧
    (∀ t, main g d c ≠ Except.ok t) := by
  have hc := output_conflict_of_two c h2
  have h1 : ∀ a, process_command_line c ≠ Except.ok a := by
    intro a h
    exact hc (process_ok_inv c a h).2.1
  refine ⟨h1, ?_⟩
  intro t h
  unfold main at h
  cases hp : process_command_line c with
  | error e => rw [hp] at h; simp at h
  | ok a => exact h1 a hp

/-- C10 witness: the concrete command line giving both dot and tgf never
runs the pipeline. -/
theorem output_switches_mutually_exclusive_witness :
    main (fun p => [p]) true
        { patterns := ["x.py"], dotFlag := true, tgfFlag := true } ≠
      Except.ok [] :=
  (output_switches_mutually_exclusive (fun p => [p]) true
    { patterns := ["x.py"], dotFlag := true, tgfFlag := true }
    (by decide)).2 []

end Pyan
